import Mathlib

/-!
Verification of the Spectral bias-detection / bias-testing / PHI-detection
services against their specification.

Real-valued float arithmetic is embedded as exact rational arithmetic (`ℚ`);
a NumPy/fairlearn `NaN` is embedded as `none : Option ℚ`, and the Python
comparison semantics `NaN > c = False` is embedded by pattern matching on the
option.  The fairlearn statistical primitives (`demographic_parity_difference`
and friends) are third-party library calls; they are modelled from the spec's
directly specified formulas (spec section 4.3).
-/

namespace Spectral

/-- Unique sensitive-attribute values of a sequence, in order of first
occurrence (the group partition keys). -/
def uniqueGroups (sf : List String) : List String :=
  sf.foldl (fun acc g => if g ∈ acc then acc else acc ++ [g]) []

/-- Arithmetic mean of a list of rationals; `none` models the NumPy `NaN`
produced by the mean of an empty array. -/
def mean (xs : List ℚ) : Option ℚ :=
  if xs.isEmpty then none else some (xs.sum / (xs.length : ℚ))

/-- Predictions restricted to the examples whose sensitive value equals `g`
(the group partitioner composed with prediction selection). -/
def groupPreds (preds : List ℚ) (sf : List String) (g : String) : List ℚ :=
  (preds.zip sf).filterMap (fun ps => if ps.2 = g then some ps.1 else none)

/-- Predictions restricted to group `g` and ground-truth label `lab`
(used for per-group true/false positive rates). -/
def groupPredsAtLabel (preds labels : List ℚ) (sf : List String) (g : String)
    (lab : ℚ) : List ℚ :=
  (preds.zip (labels.zip sf)).filterMap
    (fun r => if r.2.2 = g ∧ r.2.1 = lab then some r.1 else none)

/-- Maximum of a list of rationals (`none` on the empty list). -/
def listMax : List ℚ → Option ℚ
  | [] => none
  | x :: xs => some (xs.foldl max x)

/-- Minimum of a list of rationals (`none` on the empty list). -/
def listMin : List ℚ → Option ℚ
  | [] => none
  | x :: xs => some (xs.foldl min x)

/-- Maximum with default 0, for use on lists known to be nonempty. -/
def maxD (xs : List ℚ) : ℚ := (listMax xs).getD 0

/-- Minimum with default 0, for use on lists known to be nonempty. -/
def minD (xs : List ℚ) : ℚ := (listMin xs).getD 0

/-- Positive (selection) rates of the groups that have a defined rate.
Every group arising from a value present in `sf` is nonempty, so its rate is
defined; the `filterMap` mirrors the spec's "using only groups with a defined
rate". -/
def definedRates (preds : List ℚ) (sf : List String) : List ℚ :=
  (uniqueGroups sf).filterMap (fun g => mean (groupPreds preds sf g))

/-- Spread (max minus min) of a list of group rates; undefined when fewer
than two groups have a defined rate (spec section 4.3). -/
def spreadOf (rs : List ℚ) : Option ℚ :=
  if 2 ≤ rs.length then some (maxD rs - minD rs) else none

/-- Min/max quotient of a list of group rates; undefined when fewer than two
groups have a defined rate or the max is 0 (spec section 4.3). -/
def ratOf (rs : List ℚ) : Option ℚ :=
  if 2 ≤ rs.length ∧ maxD rs ≠ 0 then some (minD rs / maxD rs) else none

/-- Modelled from the spec: fairlearn `demographic_parity_difference` =
max group positive rate minus min group positive rate, undefined if fewer
than 2 groups have a defined rate (spec section 4.3). -/
def dpDiff (preds : List ℚ) (sf : List String) : Option ℚ :=
  spreadOf (definedRates preds sf)

/-- Modelled from the spec: fairlearn `demographic_parity_ratio` =
min group positive rate / max group positive rate, undefined if the max is 0
or fewer than 2 groups have a defined rate (spec section 4.3). -/
def dpRat (preds : List ℚ) (sf : List String) : Option ℚ :=
  ratOf (definedRates preds sf)

/-- Per-group true-positive rates (defined ones only): mean prediction over
the label-1 examples of each group. -/
def tprRates (preds labels : List ℚ) (sf : List String) : List ℚ :=
  (uniqueGroups sf).filterMap (fun g => mean (groupPredsAtLabel preds labels sf g 1))

/-- Per-group false-positive rates (defined ones only): mean prediction over
the label-0 examples of each group. -/
def fprRates (preds labels : List ℚ) (sf : List String) : List ℚ :=
  (uniqueGroups sf).filterMap (fun g => mean (groupPredsAtLabel preds labels sf g 0))

/-- Modelled from the spec: fairlearn `equalized_odds_difference` = the larger
of the TPR spread and the FPR spread; undefined if either outcome type has
fewer than 2 defined groups (spec section 4.3). -/
def eoDiff (preds labels : List ℚ) (sf : List String) : Option ℚ :=
  match spreadOf (tprRates preds labels sf), spreadOf (fprRates preds labels sf) with
  | some a, some b => some (max a b)
  | _, _ => none

/-- Modelled from the spec: fairlearn `equalized_odds_ratio` = the smaller of
the TPR min/max quotient and the FPR min/max quotient; undefined if either
outcome type has fewer than 2 defined groups or a max of 0 (spec section 4.3). -/
def eoRat (preds labels : List ℚ) (sf : List String) : Option ℚ :=
  match ratOf (tprRates preds labels sf), ratOf (fprRates preds labels sf) with
  | some a, some b => some (min a b)
  | _, _ => none

/-- Python `abs(x) > c` under float semantics: `False` when `x` is NaN. -/
def pyAbsGtB (x : Option ℚ) (c : ℚ) : Bool :=
  match x with
  | some v => decide (c < |v|)
  | none => false

/-- Python `x < c` under float semantics: `False` when `x` is NaN. -/
def pyLtB (x : Option ℚ) (c : ℚ) : Bool :=
  match x with
  | some v => decide (v < c)
  | none => false

/-- Python `x >= c` under float semantics: `False` when `x` is NaN. -/
def pyGeB (x : Option ℚ) (c : ℚ) : Bool :=
  match x with
  | some v => decide (c ≤ v)
  | none => false

/-! ## Bias-detection service (`bias-detection/fairlearn-service.py`) -/

/-- Per-group positive prediction rates, as an association list in group
order; a group is included only when it is nonempty
(`if len(group_preds) > 0` in the source). -/
def positiveRatesOf (preds : List ℚ) (sf : List String) : List (String × ℚ) :=
  (uniqueGroups sf).filterMap
    (fun g => (mean (groupPreds preds sf g)).map (fun m => (g, m)))

/-- The `bias_detected` flag of `calculate_bias_metrics` (lines 95-100):
computed from the raw, possibly-NaN metric values with Python float
comparison semantics. -/
def flaggedOf (dpO eoO : Option ℚ) (di : ℚ) : Bool :=
  pyAbsGtB dpO (1/10) || pyAbsGtB eoO (1/10) || decide (di < 4/5) || decide (5/4 < di)

/-- The severity tier of `calculate_bias_metrics` (lines 102-111). -/
def severityOf (dpO eoO : Option ℚ) (di : ℚ) : String :=
  if flaggedOf dpO eoO di then
    if pyAbsGtB dpO (1/5) || pyAbsGtB eoO (1/5) || decide (di < 3/5) then "high"
    else if pyAbsGtB dpO (3/20) || pyAbsGtB eoO (3/20) || decide (di < 7/10) then "medium"
    else "low"
  else "none"

/-- Report produced by `calculate_bias_metrics`.  The collaborator-provided
accuracy fields and the recommendation strings are omitted: no claim touches
them. -/
structure BiasReport where
  bias_detected : Bool
  severity : String
  demographic_parity_difference : ℚ
  equalized_odds_difference : ℚ
  disparate_impact : ℚ
  positive_rates : List (String × ℚ)
  deriving DecidableEq

/-- `calculate_bias_metrics` of the bias-detection service.  The disparate
impact is the multi-group min/max form with Python defaults `min(...) if
positive_rates else 0` and `max(...) if positive_rates else 1`; the reported
difference metrics are the NaN-sanitized values (lines 117-118: NaN becomes
0.0), while the flag and severity are computed from the raw values.  The
multi-group disparate impact is rational arithmetic throughout and never NaN,
so line 119's NaN check bites nowhere. -/
def calculate_bias_metrics (preds labels : List ℚ) (sf : List String) : BiasReport :=
  let dpO := dpDiff preds sf
  let eoO := eoDiff preds labels sf
  let rates := positiveRatesOf preds sf
  let minRate := (listMin (rates.map Prod.snd)).getD 0
  let maxRate := (listMax (rates.map Prod.snd)).getD 1
  let di := if 0 < maxRate then minRate / maxRate else 0
  { bias_detected := flaggedOf dpO eoO di
    severity := severityOf dpO eoO di
    demographic_parity_difference := dpO.getD 0
    equalized_odds_difference := eoO.getD 0
    disparate_impact := di
    positive_rates := rates }

/-! ## Bias-testing service (`bias-testing/fairlearn-service.py`) -/

/-- A violation record appended to the report's violation list (the
human-readable description string is omitted: no claim touches it). -/
structure Violation where
  feature : String
  metric : String
  value : ℚ
  threshold : ℚ
  severity : String
  deriving DecidableEq

/-- The violation checks of `analyze_bias` (lines 98-119) for one attribute:
a violation is appended when `dp_ratio < threshold` (False under Python float
semantics when the ratio is NaN), with severity `high` when the ratio is
< 0.6 and `medium` otherwise; then the same for `eo_ratio`. -/
def checkAttrViolations (feature : String) (dpR eoR : Option ℚ) (threshold : ℚ) :
    List Violation :=
  (match dpR with
   | some r =>
     if r < threshold then
       [{ feature := feature, metric := "demographic_parity_ratio", value := r,
          threshold := threshold, severity := if r < 3/5 then "high" else "medium" }]
     else []
   | none => []) ++
  (match eoR with
   | some r =>
     if r < threshold then
       [{ feature := feature, metric := "equalized_odds_ratio", value := r,
          threshold := threshold, severity := if r < 3/5 then "high" else "medium" }]
     else []
   | none => [])

/-- The four fairness metrics recorded per attribute in `bias_metrics`
(delivered raw: the service performs no NaN sanitization, so `none` here is a
NaN reaching the caller). -/
structure AttrMetrics where
  feature : String
  dp_difference : Option ℚ
  dp_quotient : Option ℚ
  eo_difference : Option ℚ
  eo_quotient : Option ℚ
  deriving DecidableEq

/-- One attribute's evaluation inside the `analyze_bias` loop.  A
sensitive-feature sequence whose length differs from the predictions raises
inside fairlearn (spec section 4.1, `ShapeError`); the exception propagates to
the whole-function handler, which is modelled by `Except`. -/
def analyzeAttr (preds labels : List ℚ) (threshold : ℚ) (feature : String)
    (vals : List String) : Except String (AttrMetrics × List Violation) :=
  if vals.length = preds.length then
    .ok ({ feature := feature
           dp_difference := dpDiff preds vals
           dp_quotient := dpRat preds vals
           eo_difference := eoDiff preds labels vals
           eo_quotient := eoRat preds labels vals },
         checkAttrViolations feature (dpRat preds vals) (eoRat preds labels vals) threshold)
  else .error ("shape mismatch for " ++ feature)

/-- The attribute loop of `analyze_bias`: per-attribute metrics are
accumulated in attribute order and violations appended to one shared list; a
failure anywhere escapes to the whole-function exception handler, discarding
everything accumulated so far. -/
def analyzeLoop (preds labels : List ℚ) (threshold : ℚ) :
    List (String × List String) → Except String (List AttrMetrics × List Violation)
  | [] => .ok ([], [])
  | (f, vals) :: rest =>
    match analyzeAttr preds labels threshold f vals with
    | .error e => .error e
    | .ok (m, vs) =>
      match analyzeLoop preds labels threshold rest with
      | .error e => .error e
      | .ok (ms, vss) => .ok (m :: ms, vs ++ vss)

/-- Result of a successful `analyze_bias` call (the collaborator-provided
overall/per-group classification metrics are omitted: no claim touches
them). -/
structure AnalyzeResult where
  bias_metrics : List AttrMetrics
  bias_detected : Bool
  violations : List Violation
  deriving DecidableEq

/-- `analyze_bias` of the bias-testing service.  The whole body runs under one
`try`/`except`: any failure is returned as a single structured error object
(`Except.error`).  A predictions/ground-truth length mismatch raises in the
overall-metrics block before the loop. -/
def analyze_bias (preds labels : List ℚ) (sfs : List (String × List String))
    (threshold : ℚ) : Except String AnalyzeResult :=
  if preds.length = labels.length then
    match analyzeLoop preds labels threshold sfs with
    | .error e => .error e
    | .ok (ms, vs) => .ok { bias_metrics := ms, bias_detected := !vs.isEmpty, violations := vs }
  else .error "length mismatch between predictions and ground truth"

/-- Result of `calculate_disparate_impact` (the binary privileged /
unprivileged form); option values model possibly-NaN floats. -/
structure DIResult where
  di_value : Option ℚ
  privileged_positive_rate : Option ℚ
  unprivileged_positive_rate : Option ℚ
  passes_four_fifths_rule : Bool
  bias_detected : Bool
  severity : String
  deriving DecidableEq

/-- Predictions of the designated privileged partition (`sf == privileged_group`). -/
def privSel (preds : List ℚ) (sf : List String) (priv : String) : List ℚ :=
  (preds.zip sf).filterMap (fun ps => if ps.2 = priv then some ps.1 else none)

/-- Predictions of the complementary, unprivileged partition (`~privileged_mask`). -/
def unprivSel (preds : List ℚ) (sf : List String) (priv : String) : List ℚ :=
  (preds.zip sf).filterMap (fun ps => if ps.2 = priv then none else some ps.1)

/-- `calculate_disparate_impact` of the bias-testing service (lines 130-179).
A mask/array length mismatch raises inside NumPy and is returned as the
function's structured error.  The `privileged_positive_rate == 0` test is
False when that rate is NaN; in the division branch a NaN operand makes the
quotient NaN. -/
def calculate_disparate_impact (preds : List ℚ) (sf : List String) (priv : String) :
    Except String DIResult :=
  if sf.length = preds.length then
    let pr := mean (privSel preds sf priv)
    let ur := mean (unprivSel preds sf priv)
    let di : Option ℚ :=
      if pr = some 0 then some 0
      else
        match ur, pr with
        | some u, some p => some (u / p)
        | _, _ => none
    let passes := pyGeB di (4/5)
    .ok { di_value := di
          privileged_positive_rate := pr
          unprivileged_positive_rate := ur
          passes_four_fifths_rule := passes
          bias_detected := !passes
          severity :=
            if passes then "none"
            else match di with
              | some d => if d < 3/5 then "high" else "medium"
              | none => "medium" }
  else .error "boolean index length mismatch"

/-! ## Process entry points (`main`) -/

/-- Output channel content of the bias-detection `main`. -/
inductive BDOut
  | errMsg (s : String)
  | report (r : BiasReport)
  deriving DecidableEq

/-- `main` of the bias-detection service: reads the three arrays (a missing
key defaults to `[]`), rejects empty arrays as missing input and mismatched
lengths as a shape error, both with exit status 1; otherwise prints the
report of `calculate_bias_metrics` and exits 0. -/
def mainBiasDetection (predsIn labelsIn : Option (List ℚ)) (sfIn : Option (List String)) :
    BDOut × Nat :=
  let predictions := predsIn.getD []
  let labels := labelsIn.getD []
  let sf := sfIn.getD []
  if predictions.isEmpty || labels.isEmpty || sf.isEmpty then
    (.errMsg "Missing required input data", 1)
  else if predictions.length ≠ labels.length ∨ predictions.length ≠ sf.length then
    (.errMsg "Input arrays must have same length", 1)
  else (.report (calculate_bias_metrics predictions labels sf), 0)

/-- Request object of the bias-testing `main`; `none` models an absent key. -/
structure BTRequest where
  operation : Option String
  predictions : Option (List ℚ)
  ground_truth : Option (List ℚ)
  sensitive_features : Option (List (String × List String))
  threshold : Option ℚ
  sensitive_feature : Option (List String)
  privileged_group : Option String

/-- Output channel content of the bias-testing `main`. -/
inductive BTOut
  | errObj (s : String)
  | analyzeReport (r : AnalyzeResult)
  | diReport (r : DIResult)
  deriving DecidableEq

/-- `main` of the bias-testing service: an absent required field raises
`KeyError`, which the boundary handler prints as a structured error with exit
status 1; an error value *returned* by `analyze_bias` or
`calculate_disparate_impact` (whose own `try`/`except` swallows the
exception) is printed like a normal result, with exit status 0; an unknown
operation likewise produces an error object with exit status 0. -/
def mainBiasTesting (req : BTRequest) : BTOut × Nat :=
  let op := req.operation.getD "analyze_bias"
  if op = "analyze_bias" then
    match req.predictions, req.ground_truth, req.sensitive_features with
    | some p, some g, some s =>
      match analyze_bias p g s (req.threshold.getD (4/5)) with
      | .ok r => (.analyzeReport r, 0)
      | .error e => (.errObj e, 0)
    | _, _, _ => (.errObj "KeyError", 1)
  else if op = "disparate_impact" then
    match req.predictions, req.sensitive_feature, req.privileged_group with
    | some p, some s, some g =>
      match calculate_disparate_impact p s g with
      | .ok r => (.diReport r, 0)
      | .error e => (.errObj e, 0)
    | _, _, _ => (.errObj "KeyError", 1)
  else (.errObj ("Unknown operation: " ++ op), 0)

/-! ## PHI-detection service (`phi-detection/presidio-service.py`) -/

/-- Modelled from the spec: an entity returned by the external Presidio
analyzer (type, start offset, end offset, confidence score); the analyzer and
anonymizer engines themselves are outside the core and appear as abstract
function parameters. -/
structure AnalyzedEntity where
  entity_type : String
  start : Nat
  stop : Nat
  score : ℚ
  deriving DecidableEq

/-- Python slice `text[a:b]` on characters. -/
def pySlice (t : String) (a b : Nat) : String :=
  String.mk ((t.data.drop a).take (b - a))

/-- Python `str.isspace`-style whitespace test used by `str.strip`. -/
def pyIsSpace (c : Char) : Bool :=
  c == ' ' || c == '\t' || c == '\n' || c == '\r' || c == '\x0b' || c == '\x0c'

/-- The guard `not text or not text.strip()`: the text is empty or consists
only of whitespace. -/
def pyBlank (t : String) : Bool := t.data.all pyIsSpace

/-- An entry of the `entities` list returned by `detect_phi`. -/
structure PHIEntityOut where
  entity_type : String
  start : Nat
  stop : Nat
  score : ℚ
  text : String
  deriving DecidableEq

/-- Result of `detect_phi` (the `threshold_used` echo field is omitted: no
claim touches it). -/
structure PHIResult where
  has_phi : Bool
  phi_count : Nat
  entities : List PHIEntityOut
  risk_score : ℚ
  anonymized_text : String
  deriving DecidableEq

/-- `detect_phi` of the PHI-detection service, abstracted over the external
analyzer (text, language, threshold ↦ entities) and anonymizer engines.  On
blank input it returns the fixed empty report without consulting either
engine; otherwise `risk_score` is the running `max` of the entity scores
starting from 0.0. -/
def detect_phi (analyzer : String → String → ℚ → List AnalyzedEntity)
    (anonymizer : String → List AnalyzedEntity → String)
    (text language : String) (threshold : ℚ) : PHIResult :=
  if pyBlank text then
    { has_phi := false, phi_count := 0, entities := [], risk_score := 0,
      anonymized_text := text }
  else
    let results := analyzer text language threshold
    { has_phi := decide (0 < results.length)
      phi_count := results.length
      entities := results.map (fun r =>
        { entity_type := r.entity_type, start := r.start, stop := r.stop,
          score := r.score, text := pySlice text r.start r.stop })
      risk_score := results.foldl (fun acc r => max acc r.score) 0
      anonymized_text := anonymizer text results }

/-! ## Properties of the difference/ratio-threshold scheme -/

theorem pyAbsGtB_getD (x : Option ℚ) (c : ℚ) (hc : 0 ≤ c) :
    pyAbsGtB x c = decide (c < |x.getD 0|) := by
  cases x with
  | none =>
    show false = decide (c < |(0 : ℚ)|)
    rw [abs_zero]
    exact (decide_eq_false (not_lt.2 hc)).symm
  | some v => rfl

theorem flaggedOf_iff (dpO eoO : Option ℚ) (di : ℚ) :
    flaggedOf dpO eoO di = true ↔
      (1/10 < |dpO.getD 0| ∨ 1/10 < |eoO.getD 0| ∨ di < 4/5 ∨ 5/4 < di) := by
  have e : ∀ x : Option ℚ, pyAbsGtB x (1/10) = decide ((1:ℚ)/10 < |x.getD 0|) :=
    fun x => pyAbsGtB_getD x _ (by norm_num)
  simp only [flaggedOf, e, Bool.or_eq_true, decide_eq_true_eq, or_assoc]

theorem ite_chain {α : Type} (A B C : Prop) [Decidable A] [Decidable B] [Decidable C]
    (hA : A → C) (hB : B → C) (h m l n : α) :
    (if C then (if A then h else if B then m else l) else n) =
      (if A then h else if B then m else if C then l else n) := by
  by_cases hc : C <;> by_cases ha : A <;> by_cases hb : B <;> simp_all

theorem severityOf_eq (dpO eoO : Option ℚ) (di : ℚ) :
    severityOf dpO eoO di =
      (if 1/5 < |dpO.getD 0| ∨ 1/5 < |eoO.getD 0| ∨ di < 3/5 then "high"
       else if 3/20 < |dpO.getD 0| ∨ 3/20 < |eoO.getD 0| ∨ di < 7/10 then "medium"
       else if 1/10 < |dpO.getD 0| ∨ 1/10 < |eoO.getD 0| ∨ di < 4/5 ∨ 5/4 < di then "low"
       else "none") := by
  have e1 : ∀ x : Option ℚ, pyAbsGtB x (1/10) = decide ((1:ℚ)/10 < |x.getD 0|) :=
    fun x => pyAbsGtB_getD x _ (by norm_num)
  have e2 : ∀ x : Option ℚ, pyAbsGtB x (1/5) = decide ((1:ℚ)/5 < |x.getD 0|) :=
    fun x => pyAbsGtB_getD x _ (by norm_num)
  have e3 : ∀ x : Option ℚ, pyAbsGtB x (3/20) = decide ((3:ℚ)/20 < |x.getD 0|) :=
    fun x => pyAbsGtB_getD x _ (by norm_num)
  simp only [severityOf, flaggedOf, e1, e2, e3, Bool.or_eq_true, decide_eq_true_eq, or_assoc]
  refine ite_chain _ _ _ ?_ ?_ _ _ _ _
  · rintro (h | h | h)
    · exact Or.inl (by linarith)
    · exact Or.inr (Or.inl (by linarith))
    · exact Or.inr (Or.inr (Or.inl (by linarith)))
  · rintro (h | h | h)
    · exact Or.inl (by linarith)
    · exact Or.inr (Or.inl (by linarith))
    · exact Or.inr (Or.inr (Or.inl (by linarith)))

/-- C1: in `calculate_bias_metrics`, bias is flagged iff
|dp diff| > 0.1 or |eo diff| > 0.1 or the multi-group disparate impact is
< 0.8 or > 1.25, and the severity tier follows the documented thresholds
(high: 0.2 / 0.2 / 0.6; medium: 0.15 / 0.15 / 0.7; else low when flagged,
none when not), stated over the metric values delivered in the report. -/
theorem spec_c1_difference_scheme_thresholds (preds labels : List ℚ) (sf : List String) :
    ((calculate_bias_metrics preds labels sf).bias_detected = true ↔
      (1/10 < |(calculate_bias_metrics preds labels sf).demographic_parity_difference| ∨
       1/10 < |(calculate_bias_metrics preds labels sf).equalized_odds_difference| ∨
       (calculate_bias_metrics preds labels sf).disparate_impact < 4/5 ∨
       5/4 < (calculate_bias_metrics preds labels sf).disparate_impact)) ∧
    (calculate_bias_metrics preds labels sf).severity =
      (if 1/5 < |(calculate_bias_metrics preds labels sf).demographic_parity_difference| ∨
          1/5 < |(calculate_bias_metrics preds labels sf).equalized_odds_difference| ∨
          (calculate_bias_metrics preds labels sf).disparate_impact < 3/5 then "high"
       else if 3/20 < |(calculate_bias_metrics preds labels sf).demographic_parity_difference| ∨
          3/20 < |(calculate_bias_metrics preds labels sf).equalized_odds_difference| ∨
          (calculate_bias_metrics preds labels sf).disparate_impact < 7/10 then "medium"
       else if 1/10 < |(calculate_bias_metrics preds labels sf).demographic_parity_difference| ∨
          1/10 < |(calculate_bias_metrics preds labels sf).equalized_odds_difference| ∨
          (calculate_bias_metrics preds labels sf).disparate_impact < 4/5 ∨
          5/4 < (calculate_bias_metrics preds labels sf).disparate_impact then "low"
       else "none") := by
  simp only [calculate_bias_metrics]
  exact ⟨flaggedOf_iff _ _ _, severityOf_eq _ _ _⟩

/-! ## Properties of the ratio-only threshold scheme -/

/-- C2: in the ratio-only scheme, a demographic-parity-ratio violation is
recorded for an attribute iff its demographic-parity ratio is a defined
number below the threshold, an equalized-odds-ratio violation iff its
equalized-odds ratio is a defined number below the threshold, and every
recorded violation's severity is `high` when the violating ratio is < 0.6
and `medium` otherwise. -/
theorem spec_c2_ratio_scheme_violations (feature : String) (dpR eoR : Option ℚ)
    (threshold : ℚ) :
    ((∃ v ∈ checkAttrViolations feature dpR eoR threshold,
        v.metric = "demographic_parity_ratio") ↔ ∃ r, dpR = some r ∧ r < threshold) ∧
    ((∃ v ∈ checkAttrViolations feature dpR eoR threshold,
        v.metric = "equalized_odds_ratio") ↔ ∃ r, eoR = some r ∧ r < threshold) ∧
    (∀ v ∈ checkAttrViolations feature dpR eoR threshold,
      v.severity = if v.value < 3/5 then "high" else "medium") := by
  cases dpR with
  | none =>
    cases eoR with
    | none => simp [checkAttrViolations]
    | some re =>
      by_cases he : re < threshold <;>
        simp [checkAttrViolations, he]
  | some rd =>
    cases eoR with
    | none =>
      by_cases hd : rd < threshold <;>
        simp [checkAttrViolations, hd]
    | some re =>
      by_cases hd : rd < threshold <;> by_cases he : re < threshold <;>
        simp [checkAttrViolations, hd, he]

/-- The violation recorded for a demographic-parity ratio of 1/2 against the
default 0.8 threshold; used only to exercise the ratio-scheme theorem. -/
def demoViolation : Violation :=
  { feature := "g", metric := "demographic_parity_ratio", value := 1/2,
    threshold := 4/5, severity := "high" }

/-- Witness for C2 at a concrete input: a demographic-parity ratio of 1/2
below the default 0.8 threshold records one violation with severity high. -/
theorem spec_c2_witness :
    demoViolation ∈ checkAttrViolations "g" (some (1/2)) none (4/5) ∧
    demoViolation.severity =
      (if demoViolation.value < 3/5 then "high" else "medium") := by
  have hmem : demoViolation ∈ checkAttrViolations "g" (some (1/2)) none (4/5) := by
    norm_num [checkAttrViolations, demoViolation]
  exact ⟨hmem, (spec_c2_ratio_scheme_violations "g" (some (1/2)) none (4/5)).2.2
    _ hmem⟩

/-- C5 counterexample: on the spec's "fair" example the code in fact reports
bias, because the equalized-odds difference is 1/2 > 0.1 (FPR spread: group A
1/2 versus group B 0), so `bias_detected` is not false as claimed. -/
theorem spec_c5_counterexample :
    (calculate_bias_metrics [1,1,0,0,1,0,1,0] [1,0,0,1,1,0,1,1]
      ["A","A","A","A","B","B","B","B"]).bias_detected = true ∧
    (calculate_bias_metrics [1,1,0,0,1,0,1,0] [1,0,0,1,1,0,1,1]
      ["A","A","A","A","B","B","B","B"]).equalized_odds_difference = 1/2 := by
  norm_num +decide [calculate_bias_metrics, dpDiff, eoDiff, spreadOf, definedRates,
    tprRates, fprRates, uniqueGroups, groupPreds, groupPredsAtLabel, mean, maxD, minD,
    listMax, listMin, positiveRatesOf, flaggedOf, pyAbsGtB, List.filterMap_cons,
    List.filterMap_nil, abs_of_nonneg]

/-- C5 amended: on that example both group positive rates are 1/2 and the
demographic-parity difference is 0, but the equalized-odds difference is 1/2,
so the engine reports `bias_detected = true` with severity `high`. -/
theorem spec_c5_amended_example :
    (calculate_bias_metrics [1,1,0,0,1,0,1,0] [1,0,0,1,1,0,1,1]
      ["A","A","A","A","B","B","B","B"]).positive_rates = [("A", 1/2), ("B", 1/2)] ∧
    (calculate_bias_metrics [1,1,0,0,1,0,1,0] [1,0,0,1,1,0,1,1]
      ["A","A","A","A","B","B","B","B"]).demographic_parity_difference = 0 ∧
    (calculate_bias_metrics [1,1,0,0,1,0,1,0] [1,0,0,1,1,0,1,1]
      ["A","A","A","A","B","B","B","B"]).bias_detected = true ∧
    (calculate_bias_metrics [1,1,0,0,1,0,1,0] [1,0,0,1,1,0,1,1]
      ["A","A","A","A","B","B","B","B"]).severity = "high" := by
  norm_num +decide [calculate_bias_metrics, dpDiff, eoDiff, spreadOf, definedRates,
    tprRates, fprRates, uniqueGroups, groupPreds, groupPredsAtLabel, mean, maxD, minD,
    listMax, listMin, positiveRatesOf, flaggedOf, severityOf, pyAbsGtB,
    List.filterMap_cons, List.filterMap_nil, abs_of_nonneg]

/-! ## Degeneracy handling (sanitization) -/

theorem mem_of_mem_privSel {x : ℚ} {preds : List ℚ} {sf : List String} {priv : String}
    (h : x ∈ privSel preds sf priv) : x ∈ preds := by
  simp only [privSel, List.mem_filterMap] at h
  obtain ⟨ps, hps, hf⟩ := h
  by_cases hc : ps.2 = priv
  · rw [if_pos hc] at hf
    exact Option.some.inj hf ▸ (List.of_mem_zip hps).1
  · rw [if_neg hc] at hf
    exact absurd hf (by simp)

theorem mem_of_mem_unprivSel {x : ℚ} {preds : List ℚ} {sf : List String} {priv : String}
    (h : x ∈ unprivSel preds sf priv) : x ∈ preds := by
  simp only [unprivSel, List.mem_filterMap] at h
  obtain ⟨ps, hps, hf⟩ := h
  by_cases hc : ps.2 = priv
  · rw [if_pos hc] at hf
    exact absurd hf (by simp)
  · rw [if_neg hc] at hf
    exact Option.some.inj hf ▸ (List.of_mem_zip hps).1

theorem mean_nonneg (xs : List ℚ) (h : ∀ x ∈ xs, 0 ≤ x) (m : ℚ)
    (hm : mean xs = some m) : 0 ≤ m := by
  unfold mean at hm
  by_cases he : xs.isEmpty
  · rw [if_pos he] at hm
    exact absurd hm (by simp)
  · rw [if_neg he] at hm
    obtain rfl := Option.some.inj hm
    exact div_nonneg (List.sum_nonneg h) (by positivity)

/-- C3 counterexample: `analyze_bias` performs no sanitization.  With all-zero
predictions the demographic-parity ratio is undefined (0/0, a NaN), and it is
delivered to the caller as such (`dp_quotient = none`), not resolved to 1.0;
the report is a success object, so the NaN reaches the caller. -/
theorem spec_c3_counterexample :
    analyze_bias [0,0] [0,1] [("g", ["A","B"])] (4/5) =
      Except.ok { bias_metrics := [{ feature := "g", dp_difference := some 0,
                                     dp_quotient := none, eo_difference := none,
                                     eo_quotient := none }],
                  bias_detected := false, violations := [] } := by
  norm_num +decide [analyze_bias, analyzeLoop, analyzeAttr, checkAttrViolations,
    dpDiff, dpRat, eoDiff, eoRat, spreadOf, ratOf, definedRates, tprRates, fprRates,
    uniqueGroups, groupPreds, groupPredsAtLabel, mean, maxD, minD, listMax, listMin,
    List.filterMap_cons, List.filterMap_nil]

/-- C3 amended: the difference-scheme service sanitizes.  An undefined
demographic-parity or equalized-odds difference is reported as 0.0; the
multi-group disparate impact is reported as 0.0 when the maximum positive
rate is 0; the binary disparate impact is 0.0 when the privileged rate is 0.
The ratio-scheme service delivers the metrics of `analyzeAttr` raw, with no
sanitization step, so an undefined value reaches the caller as NaN. -/
theorem spec_c3_amended_sanitization :
    (∀ (preds labels : List ℚ) (sf : List String), dpDiff preds sf = none →
      (calculate_bias_metrics preds labels sf).demographic_parity_difference = 0) ∧
    (∀ (preds labels : List ℚ) (sf : List String), eoDiff preds labels sf = none →
      (calculate_bias_metrics preds labels sf).equalized_odds_difference = 0) ∧
    (∀ (preds labels : List ℚ) (sf : List String),
      listMax ((positiveRatesOf preds sf).map Prod.snd) = some 0 →
      (calculate_bias_metrics preds labels sf).disparate_impact = 0) ∧
    (∀ (preds : List ℚ) (sf : List String) (priv : String),
      sf.length = preds.length → mean (privSel preds sf priv) = some 0 →
      (calculate_disparate_impact preds sf priv).toOption.map DIResult.di_value =
        some (some 0)) ∧
    (∀ (preds labels : List ℚ) (th : ℚ) (f : String) (vals : List String)
        (m : AttrMetrics) (vs : List Violation),
      analyzeAttr preds labels th f vals = .ok (m, vs) →
      m.dp_quotient = dpRat preds vals ∧ m.eo_quotient = eoRat preds labels vals) := by
  refine ⟨?_, ?_, ?_, ?_, ?_⟩
  · intro preds labels sf h
    simp [calculate_bias_metrics, h]
  · intro preds labels sf h
    simp [calculate_bias_metrics, h]
  · intro preds labels sf h
    simp [calculate_bias_metrics, h]
  · intro preds sf priv hlen hpr
    simp [calculate_disparate_impact, hlen, hpr, Except.toOption]
  · intro preds labels th f vals m vs h
    by_cases hlen : vals.length = preds.length
    · simp only [analyzeAttr, if_pos hlen, Except.ok.injEq, Prod.mk.injEq] at h
      obtain ⟨h1, -⟩ := h
      subst h1
      exact ⟨rfl, rfl⟩
    · simp [analyzeAttr, hlen] at h

/-- Witness for the C3 amendment: each sanitization branch exercised on a
concrete input. -/
theorem spec_c3_amended_witness :
    (dpDiff [0] ["A"] = none ∧
      (calculate_bias_metrics [0] [0] ["A"]).demographic_parity_difference = 0) ∧
    (eoDiff [0] [0] ["A"] = none ∧
      (calculate_bias_metrics [0] [0] ["A"]).equalized_odds_difference = 0) ∧
    (listMax ((positiveRatesOf [0,0] ["A","B"]).map Prod.snd) = some 0 ∧
      (calculate_bias_metrics [0,0] [0,1] ["A","B"]).disparate_impact = 0) ∧
    (mean (privSel [0,1] ["A","B"] "A") = some 0 ∧
      (calculate_disparate_impact [0,1] ["A","B"] "A").toOption.map DIResult.di_value =
        some (some 0)) ∧
    ({ feature := "g", dp_difference := dpDiff [0,1] ["A","B"],
       dp_quotient := dpRat [0,1] ["A","B"],
       eo_difference := eoDiff [0,1] [0,1] ["A","B"],
       eo_quotient := eoRat [0,1] [0,1] ["A","B"] } : AttrMetrics).dp_quotient =
      dpRat [0,1] ["A","B"] := by
  have h1 : dpDiff [0] ["A"] = none := by rfl
  have h2 : eoDiff [0] [0] ["A"] = none := by rfl
  have h3 : listMax ((positiveRatesOf [0,0] ["A","B"]).map Prod.snd) = some 0 := by
    norm_num +decide [positiveRatesOf, uniqueGroups, groupPreds, mean, listMax,
      List.filterMap_cons, List.filterMap_nil]
  have h4 : mean (privSel [0,1] ["A","B"] "A") = some 0 := by
    norm_num +decide [privSel, mean, List.filterMap_cons, List.filterMap_nil]
  exact ⟨⟨h1, spec_c3_amended_sanitization.1 _ [0] _ h1⟩,
         ⟨h2, spec_c3_amended_sanitization.2.1 _ _ _ h2⟩,
         ⟨h3, spec_c3_amended_sanitization.2.2.1 _ [0,1] _ h3⟩,
         ⟨h4, spec_c3_amended_sanitization.2.2.2.1 _ _ _ (by rfl) h4⟩,
         (spec_c3_amended_sanitization.2.2.2.2 [0,1] [0,1] (4/5) "g" ["A","B"]
           _ _ rfl).1⟩

/-- C4 counterexample: with a privileged positive rate of 1/2 and an
unprivileged rate of 1, the binary disparate-impact ratio is 2, outside
[0,1] even though the privileged rate is positive. -/
theorem spec_c4_counterexample :
    calculate_disparate_impact [1,0,1] ["A","A","B"] "A" =
      Except.ok { di_value := some 2, privileged_positive_rate := some (1/2),
                  unprivileged_positive_rate := some 1,
                  passes_four_fifths_rule := true, bias_detected := false,
                  severity := "none" } ∧ ¬ ((2:ℚ) ≤ 1) := by
  constructor
  · norm_num +decide [calculate_disparate_impact, privSel, unprivSel, mean, pyGeB,
      List.filterMap_cons, List.filterMap_nil]
  · norm_num

/-- C4 amended: for binary predictions with both partitions nonempty, the
binary disparate-impact ratio equals the unprivileged positive rate divided
by the privileged positive rate, equals exactly 0.0 when the privileged rate
is 0, and is nonnegative (but not necessarily ≤ 1) when the privileged rate
is positive. -/
theorem spec_c4_amended_binary_di (preds : List ℚ) (sf : List String) (priv : String)
    (u p : ℚ) (hlen : sf.length = preds.length)
    (hbin : ∀ x ∈ preds, x = 0 ∨ x = 1)
    (hu : mean (unprivSel preds sf priv) = some u)
    (hp : mean (privSel preds sf priv) = some p) :
    (p = 0 → (calculate_disparate_impact preds sf priv).toOption.map DIResult.di_value =
      some (some 0)) ∧
    (p ≠ 0 → (calculate_disparate_impact preds sf priv).toOption.map DIResult.di_value =
      some (some (u / p)) ∧ 0 ≤ u / p) := by
  have hun : 0 ≤ u := mean_nonneg _
    (fun x hx => by rcases hbin x (mem_of_mem_unprivSel hx) with rfl | rfl <;> norm_num) _ hu
  have hpn : 0 ≤ p := mean_nonneg _
    (fun x hx => by rcases hbin x (mem_of_mem_privSel hx) with rfl | rfl <;> norm_num) _ hp
  constructor
  · intro h0
    subst h0
    simp [calculate_disparate_impact, hlen, hp, Except.toOption]
  · intro hne
    constructor
    · simp [calculate_disparate_impact, hlen, hp, hu, hne, Except.toOption]
    · exact div_nonneg hun hpn

/-- Witness for the C4 amendment: the positive-rate branch at one concrete
input and the zero-rate branch at another. -/
theorem spec_c4_amended_witness :
    ((["A","A","B"] : List String).length = ([1,0,1] : List ℚ).length) ∧
    (∀ x ∈ ([1,0,1] : List ℚ), x = 0 ∨ x = 1) ∧
    mean (unprivSel [1,0,1] ["A","A","B"] "A") = some 1 ∧
    mean (privSel [1,0,1] ["A","A","B"] "A") = some (1/2) ∧
    ((calculate_disparate_impact [1,0,1] ["A","A","B"] "A").toOption.map
      DIResult.di_value = some (some (1 / (1/2))) ∧ 0 ≤ 1 / ((1:ℚ)/2)) ∧
    mean (privSel [0,1] ["A","B"] "A") = some 0 ∧
    (calculate_disparate_impact [0,1] ["A","B"] "A").toOption.map
      DIResult.di_value = some (some 0) := by
  have hu : mean (unprivSel [1,0,1] ["A","A","B"] "A") = some 1 := by
    norm_num +decide [unprivSel, mean, List.filterMap_cons, List.filterMap_nil]
  have hp : mean (privSel [1,0,1] ["A","A","B"] "A") = some (1/2) := by
    norm_num +decide [privSel, mean, List.filterMap_cons, List.filterMap_nil]
  have hbin : ∀ x ∈ ([1,0,1] : List ℚ), x = 0 ∨ x = 1 := by
    intro x hx
    simp only [List.mem_cons, List.not_mem_nil, or_false] at hx
    rcases hx with rfl | rfl | rfl <;> norm_num
  have hu2 : mean (unprivSel [0,1] ["A","B"] "A") = some 1 := by
    norm_num +decide [unprivSel, mean, List.filterMap_cons, List.filterMap_nil]
  have hp2 : mean (privSel [0,1] ["A","B"] "A") = some 0 := by
    norm_num +decide [privSel, mean, List.filterMap_cons, List.filterMap_nil]
  have hbin2 : ∀ x ∈ ([0,1] : List ℚ), x = 0 ∨ x = 1 := by
    intro x hx
    simp only [List.mem_cons, List.not_mem_nil, or_false] at hx
    rcases hx with rfl | rfl <;> norm_num
  exact ⟨rfl, hbin, hu, hp,
    (spec_c4_amended_binary_di [1,0,1] ["A","A","B"] "A" 1 (1/2) rfl hbin hu hp).2
      (by norm_num), hp2,
    (spec_c4_amended_binary_di [0,1] ["A","B"] "A" 1 0 rfl hbin2 hu2 hp2).1 rfl⟩

/-! ## Failure propagation in the multi-attribute path -/

theorem analyzeLoop_error_of_bad_attr (preds labels : List ℚ) (th : ℚ)
    (attrs : List (String × List String)) (f : String) (vals : List String)
    (hmem : (f, vals) ∈ attrs) (hbad : vals.length ≠ preds.length) :
    ∃ e, analyzeLoop preds labels th attrs = .error e := by
  induction attrs with
  | nil => exact absurd hmem (List.not_mem_nil _)
  | cons head rest ih =>
    obtain ⟨g, ws⟩ := head
    rcases List.mem_cons.mp hmem with heq | htail
    · obtain ⟨rfl, rfl⟩ := Prod.mk.injEq .. ▸ heq
      refine ⟨"shape mismatch for " ++ f, ?_⟩
      simp [analyzeLoop, analyzeAttr, hbad]
    · rcases hattr : analyzeAttr preds labels th g ws with e | mv
      · exact ⟨e, by simp [analyzeLoop, hattr]⟩
      · obtain ⟨e, he⟩ := ih htail
        refine ⟨e, ?_⟩
        simp [analyzeLoop, hattr, he]

/-- C6 counterexample: attribute `a` is well-formed, attribute `b` has a
mismatched length and fails; the whole `analyze_bias` call collapses to a
single error object, and attribute `a`'s metrics do not appear anywhere. -/
theorem spec_c6_counterexample :
    analyze_bias [1,0] [1,0] [("a", ["A","B"]), ("b", ["A"])] (4/5) =
      Except.error "shape mismatch for b" := by
  rfl

/-- C6 amended: a computation failure while evaluating any one attribute
aborts the entire multi-attribute analysis — the exception is caught only at
the whole-function boundary, so the result is a single structured error
object and no attribute's metrics or violations appear. -/
theorem spec_c6_amended_abort (preds labels : List ℚ) (th : ℚ)
    (attrs : List (String × List String)) (f : String) (vals : List String)
    (hmem : (f, vals) ∈ attrs) (hbad : vals.length ≠ preds.length) :
    ∃ e, analyze_bias preds labels attrs th = .error e := by
  unfold analyze_bias
  by_cases hl : preds.length = labels.length
  · obtain ⟨e, he⟩ := analyzeLoop_error_of_bad_attr preds labels th attrs f vals hmem hbad
    exact ⟨e, by simp [hl, he]⟩
  · exact ⟨"length mismatch between predictions and ground truth", by simp [hl]⟩

/-- Witness for the C6 amendment at a concrete input. -/
theorem spec_c6_amended_witness :
    (("b", ["A"]) ∈ [("a", (["A","B"] : List String)), ("b", ["A"])]) ∧
    ((["A"] : List String).length ≠ ([1,0] : List ℚ).length) ∧
    (∃ e, analyze_bias [1,0] [1,0] [("a", ["A","B"]), ("b", ["A"])] (4/5) =
      .error e) := by
  refine ⟨by simp, by simp, ?_⟩
  exact spec_c6_amended_abort [1,0] [1,0] (4/5) [("a", ["A","B"]), ("b", ["A"])]
    "b" ["A"] (by simp) (by simp)

/-! ## Boundary error reporting of the two entry points -/

/-- C7 counterexample: in the bias-testing service a length mismatch between
an attribute's values and the predictions is caught inside `analyze_bias` and
returned as a structured error object, which `main` prints like a normal
result: the exit status is 0, not non-zero. -/
theorem spec_c7_counterexample :
    mainBiasTesting { operation := none, predictions := some [1,0],
                      ground_truth := some [1,0],
                      sensitive_features := some [("g", ["A"])],
                      threshold := none, sensitive_feature := none,
                      privileged_group := none } =
      (BTOut.errObj "shape mismatch for g", 0) := by
  rfl

/-- C7 amended: a missing required field yields a structured error object and
exit status 1 in both services, and a length mismatch does so in the
bias-detection service; but in the bias-testing service a length mismatch is
swallowed by `analyze_bias`'s own handler and emitted as a structured error
object with exit status 0. -/
theorem spec_c7_amended_errors :
    (∀ (p l : Option (List ℚ)) (s : Option (List String)),
      ((p.getD []).isEmpty ∨ (l.getD []).isEmpty ∨ (s.getD []).isEmpty) →
      mainBiasDetection p l s = (.errMsg "Missing required input data", 1)) ∧
    (∀ (p l : Option (List ℚ)) (s : Option (List String)),
      ¬((p.getD []).isEmpty ∨ (l.getD []).isEmpty ∨ (s.getD []).isEmpty) →
      ((p.getD []).length ≠ (l.getD []).length ∨ (p.getD []).length ≠ (s.getD []).length) →
      mainBiasDetection p l s = (.errMsg "Input arrays must have same length", 1)) ∧
    (∀ req : BTRequest, req.operation.getD "analyze_bias" = "analyze_bias" →
      (req.predictions = none ∨ req.ground_truth = none ∨ req.sensitive_features = none) →
      mainBiasTesting req = (.errObj "KeyError", 1)) ∧
    (∀ (p g : List ℚ) (s : List (String × List String)) (th : Option ℚ)
        (f : String) (vals : List String),
      (f, vals) ∈ s → vals.length ≠ p.length →
      ∃ m, mainBiasTesting { operation := none, predictions := some p,
                             ground_truth := some g, sensitive_features := some s,
                             threshold := th, sensitive_feature := none,
                             privileged_group := none } = (.errObj m, 0)) := by
  refine ⟨?_, ?_, ?_, ?_⟩
  · intro p l s h
    simp only [mainBiasDetection]
    rw [if_pos]
    simpa [or_assoc] using h
  · intro p l s h1 h2
    simp only [mainBiasDetection]
    rw [if_neg (by simpa [or_assoc] using h1), if_pos h2]
  · intro req hop hmiss
    rcases hmiss with h | h | h
    · simp [mainBiasTesting, hop, h]
    · rcases hp : req.predictions with _ | p <;>
        simp [mainBiasTesting, hop, h, hp]
    · rcases hp : req.predictions with _ | p <;>
        rcases hg : req.ground_truth with _ | g <;>
        simp [mainBiasTesting, hop, h, hp, hg]
  · intro p g s th f vals hmem hbad
    obtain ⟨e, he⟩ := spec_c6_amended_abort p g (th.getD (4/5)) s f vals hmem hbad
    exact ⟨e, by simp [mainBiasTesting, he]⟩

/-- Witness for the C7 amendment: each error path exercised on a concrete
request. -/
theorem spec_c7_amended_witness :
    mainBiasDetection (some []) (some [1]) (some ["A"]) =
      (.errMsg "Missing required input data", 1) ∧
    mainBiasDetection (some [1]) (some [1]) (some ["A","B"]) =
      (.errMsg "Input arrays must have same length", 1) ∧
    mainBiasTesting { operation := none, predictions := none, ground_truth := some [1],
                      sensitive_features := some [("g", ["A"])], threshold := none,
                      sensitive_feature := none, privileged_group := none } =
      (.errObj "KeyError", 1) ∧
    (∃ m, mainBiasTesting { operation := none, predictions := some [1,0],
                            ground_truth := some [1,0],
                            sensitive_features := some [("g", ["A"])],
                            threshold := none, sensitive_feature := none,
                            privileged_group := none } = (.errObj m, 0)) := by
  refine ⟨?_, ?_, ?_, ?_⟩
  · exact spec_c7_amended_errors.1 (some []) (some [1]) (some ["A"]) (by simp)
  · exact spec_c7_amended_errors.2.1 (some [1]) (some [1]) (some ["A","B"])
      (by simp) (by simp)
  · exact spec_c7_amended_errors.2.2.1 _ rfl (Or.inl rfl)
  · exact spec_c7_amended_errors.2.2.2 [1,0] [1,0] [("g", ["A"])] none "g" ["A"]
      (by simp) (by simp)

/-! ## Reciprocity of the binary disparate impact under group swap -/

theorem unprivSel_eq_privSel (preds : List ℚ) (sf : List String) (A B : String)
    (hAB : A ≠ B) (hbin : ∀ g ∈ sf, g = A ∨ g = B) :
    unprivSel preds sf A = privSel preds sf B := by
  induction preds generalizing sf hbin with
  | nil => simp [unprivSel, privSel]
  | cons x xs ih =>
    cases sf with
    | nil => simp [unprivSel, privSel]
    | cons g gs =>
      have htail : ∀ h ∈ gs, h = A ∨ h = B :=
        fun h hh => hbin h (List.mem_cons_of_mem _ hh)
      have hx := ih gs htail
      rcases hbin g (List.mem_cons_self _ _) with rfl | rfl
      · simpa [unprivSel, privSel, hAB] using hx
      · have hBA : ¬ (g = A) := fun h => hAB h.symm
        simpa [unprivSel, privSel, hBA] using hx

/-- C8: for a binary sensitive attribute with both group rates positive,
swapping the designated privileged group in `calculate_disparate_impact`
yields the reciprocal ratio, and the two ratios multiply to exactly 1. -/
theorem spec_c8_reciprocal (preds : List ℚ) (sf : List String) (A B : String)
    (hAB : A ≠ B) (hbin : ∀ g ∈ sf, g = A ∨ g = B) (hlen : sf.length = preds.length)
    (pA pB : ℚ)
    (hA : mean (privSel preds sf A) = some pA) (hB : mean (privSel preds sf B) = some pB)
    (hposA : 0 < pA) (hposB : 0 < pB) :
    (calculate_disparate_impact preds sf A).toOption.map DIResult.di_value =
      some (some (pB / pA)) ∧
    (calculate_disparate_impact preds sf B).toOption.map DIResult.di_value =
      some (some (pA / pB)) ∧
    (pB / pA) * (pA / pB) = 1 := by
  have hu1 : mean (unprivSel preds sf A) = some pB := by
    rw [unprivSel_eq_privSel preds sf A B hAB hbin]
    exact hB
  have hu2 : mean (unprivSel preds sf B) = some pA := by
    rw [unprivSel_eq_privSel preds sf B A (fun h => hAB h.symm)
      (fun g hg => (hbin g hg).symm)]
    exact hA
  refine ⟨?_, ?_, ?_⟩
  · simp [calculate_disparate_impact, hlen, hA, hu1, hposA.ne', Except.toOption]
  · simp [calculate_disparate_impact, hlen, hB, hu2, hposB.ne', Except.toOption]
  · rw [div_mul_div_comm, mul_comm pB pA, div_self (mul_pos hposA hposB).ne']

/-- Witness for C8 at a concrete input. -/
theorem spec_c8_witness :
    (("A" : String) ≠ "B") ∧
    (∀ g ∈ (["A","A","B","B"] : List String), g = "A" ∨ g = "B") ∧
    mean (privSel [1,1,0,1] ["A","A","B","B"] "A") = some 1 ∧
    mean (privSel [1,1,0,1] ["A","A","B","B"] "B") = some (1/2) ∧
    (calculate_disparate_impact [1,1,0,1] ["A","A","B","B"] "A").toOption.map
      DIResult.di_value = some (some ((1/2) / 1)) ∧
    (calculate_disparate_impact [1,1,0,1] ["A","A","B","B"] "B").toOption.map
      DIResult.di_value = some (some (1 / (1/2))) ∧
    ((1:ℚ)/2 / 1) * (1 / ((1:ℚ)/2)) = 1 := by
  have hA : mean (privSel [1,1,0,1] ["A","A","B","B"] "A") = some 1 := by
    norm_num +decide [privSel, mean, List.filterMap_cons, List.filterMap_nil]
  have hB : mean (privSel [1,1,0,1] ["A","A","B","B"] "B") = some (1/2) := by
    norm_num +decide [privSel, mean, List.filterMap_cons, List.filterMap_nil]
  have hbin : ∀ g ∈ (["A","A","B","B"] : List String), g = "A" ∨ g = "B" := by decide
  obtain ⟨h1, h2, h3⟩ := spec_c8_reciprocal [1,1,0,1] ["A","A","B","B"] "A" "B"
    (by decide) hbin rfl 1 (1/2) hA hB (by norm_num) (by norm_num)
  exact ⟨by decide, hbin, hA, hB, h1, h2, h3⟩

/-! ## PHI detection: risk score and blank input -/

theorem foldl_max_zero_eq (xs : List ℚ) (s : ℚ) (h : ∀ x ∈ xs, 0 ≤ x)
    (hs : listMax xs = some s) : xs.foldl max 0 = s := by
  cases xs with
  | nil => exact absurd hs (by simp [listMax])
  | cons x rest =>
    obtain rfl := Option.some.inj hs
    show List.foldl max (max 0 x) rest = List.foldl max x rest
    rw [max_eq_right (h x (List.mem_cons_self _ _))]

/-- C9: the reported `risk_score` of `detect_phi` equals the maximum of the
detected entities' confidence scores (given that the external analyzer
reports nonnegative confidences), and equals 0.0 when no entities are
detected. -/
theorem spec_c9_risk_score (analyzer : String → String → ℚ → List AnalyzedEntity)
    (anonymizer : String → List AnalyzedEntity → String)
    (text language : String) (threshold : ℚ)
    (hnn : ∀ e ∈ (detect_phi analyzer anonymizer text language threshold).entities,
      0 ≤ e.score) :
    ((detect_phi analyzer anonymizer text language threshold).entities = [] →
      (detect_phi analyzer anonymizer text language threshold).risk_score = 0) ∧
    (∀ s, listMax ((detect_phi analyzer anonymizer text language threshold).entities.map
        PHIEntityOut.score) = some s →
      (detect_phi analyzer anonymizer text language threshold).risk_score = s) := by
  by_cases hb : pyBlank text
  · constructor
    · intro _
      simp [detect_phi, hb]
    · intro s hs
      rw [show (detect_phi analyzer anonymizer text language threshold).entities = []
        from by simp [detect_phi, hb]] at hs
      exact absurd hs (by simp [listMax])
  · have hent : (detect_phi analyzer anonymizer text language threshold).entities =
        (analyzer text language threshold).map (fun r =>
          { entity_type := r.entity_type, start := r.start, stop := r.stop,
            score := r.score, text := pySlice text r.start r.stop }) := by
      simp [detect_phi, hb]
    have hrisk : (detect_phi analyzer anonymizer text language threshold).risk_score =
        (analyzer text language threshold).foldl (fun acc r => max acc r.score) 0 := by
      simp [detect_phi, hb]
    constructor
    · intro he
      rw [hent] at he
      rw [hrisk, List.map_eq_nil_iff.mp he]
      rfl
    · intro s hs
      rw [hent, List.map_map] at hs
      have hs' : listMax ((analyzer text language threshold).map
          (fun r => r.score)) = some s := by
        convert hs using 2
      have hnn' : ∀ y ∈ (analyzer text language threshold).map (fun r => r.score),
          0 ≤ y := by
        intro y hy
        obtain ⟨r, hrmem, rfl⟩ := List.mem_map.mp hy
        have := hnn _ (by rw [hent]; exact List.mem_map_of_mem _ hrmem)
        exact this
      rw [hrisk, ← List.foldl_map (fun r : AnalyzedEntity => r.score) max]
      exact foldl_max_zero_eq _ s hnn' hs'

/-- A concrete analyzer used only to exercise the PHI theorems. -/
def demoAnalyzer : String → String → ℚ → List AnalyzedEntity :=
  fun _ _ _ => [{ entity_type := "PERSON", start := 0, stop := 4, score := 7/10 },
                { entity_type := "PHONE_NUMBER", start := 5, stop := 9, score := 9/10 }]

/-- A concrete anonymizer used only to exercise the PHI theorems. -/
def demoAnonymizer : String → List AnalyzedEntity → String := fun _ _ => "<PHI>"

/-- Witness for C9 at a concrete input: two entities with scores 0.7 and
0.9, risk score 0.9. -/
theorem spec_c9_witness :
    (∀ e ∈ (detect_phi demoAnalyzer demoAnonymizer "john 1234" "en" (1/2)).entities,
      0 ≤ e.score) ∧
    listMax ((detect_phi demoAnalyzer demoAnonymizer "john 1234" "en" (1/2)).entities.map
      PHIEntityOut.score) = some (9/10) ∧
    (detect_phi demoAnalyzer demoAnonymizer "john 1234" "en" (1/2)).risk_score = 9/10 ∧
    ((detect_phi (fun _ _ _ => []) demoAnonymizer "john 1234" "en" (1/2)).entities = [] ∧
      (detect_phi (fun _ _ _ => []) demoAnonymizer "john 1234" "en" (1/2)).risk_score = 0) := by
  have hblank : pyBlank "john 1234" = false := by rfl
  have hnn : ∀ e ∈ (detect_phi demoAnalyzer demoAnonymizer "john 1234" "en" (1/2)).entities,
      0 ≤ e.score := by
    intro e he
    simp only [detect_phi, hblank, Bool.false_eq_true, if_false, demoAnalyzer,
      List.map_cons, List.map_nil, List.mem_cons, List.not_mem_nil, or_false] at he
    rcases he with rfl | rfl <;> norm_num
  have hmax : listMax ((detect_phi demoAnalyzer demoAnonymizer "john 1234" "en"
      (1/2)).entities.map PHIEntityOut.score) = some (9/10) := by
    simp only [detect_phi, hblank, Bool.false_eq_true, if_false, demoAnalyzer,
      List.map_cons, List.map_nil, listMax, List.foldl_cons, List.foldl_nil]
    norm_num [max_def]
  have hemp : (detect_phi (fun _ _ _ => []) demoAnonymizer "john 1234" "en"
      (1/2)).entities = [] := by
    simp [detect_phi, hblank]
  exact ⟨hnn, hmax,
    (spec_c9_risk_score demoAnalyzer demoAnonymizer "john 1234" "en" (1/2) hnn).2
      (9/10) hmax,
    hemp,
    (spec_c9_risk_score (fun _ _ _ => []) demoAnonymizer "john 1234" "en" (1/2)
      (by simp [detect_phi, hblank])).1 hemp⟩

/-- C10: on empty or all-whitespace input, `detect_phi` returns the fixed
empty report — no PHI, zero count, empty entities, risk 0, and the original
text unchanged — for *every* analyzer and anonymizer, i.e. without consulting
either engine. -/
theorem spec_c10_blank_text (analyzer : String → String → ℚ → List AnalyzedEntity)
    (anonymizer : String → List AnalyzedEntity → String)
    (text language : String) (threshold : ℚ) (h : pyBlank text = true) :
    detect_phi analyzer anonymizer text language threshold =
      { has_phi := false, phi_count := 0, entities := [], risk_score := 0,
        anonymized_text := text } := by
  simp [detect_phi, h]

/-- Witness for C10: whitespace-only input, with an analyzer that would
report an entity if it were consulted. -/
theorem spec_c10_witness :
    pyBlank " \t" = true ∧
    detect_phi demoAnalyzer demoAnonymizer " \t" "en" (1/2) =
      { has_phi := false, phi_count := 0, entities := [], risk_score := 0,
        anonymized_text := " \t" } :=
  ⟨rfl, spec_c10_blank_text demoAnalyzer demoAnonymizer " \t" "en" (1/2) rfl⟩

end Spectral
